import Mathlib

/-!
Verification of the document-storage utility in `upload_secure_document.py` and
`upload_secure_document_simple.py`: a shallow embedding of the two operations
(`upload_secure_document` and `get_secure_document_url`, in each of the two
variants) together with theorems about key namespacing, error propagation,
configuration checks and side effects.
-/

namespace KoveoDocs

/-- Kinds of Python exceptions raised by the repository code. `valueError`
models Python ValueError (the ConfigurationError of the design taxonomy),
`fileNotFound` models FileNotFoundError, `notFound` models
google.cloud.exceptions.NotFound, `permissionError` models PermissionError,
and `generic` models a bare Exception. -/
inductive PyErrKind where
  | valueError
  | fileNotFound
  | notFound
  | permissionError
  | generic
  deriving DecidableEq, Repr

/-- An exception as raised by the Python code: its class kind and message. -/
structure PyErr where
  kind : PyErrKind
  msg : String
  deriving DecidableEq, Repr

/-- Kinds of exceptions the external Google Cloud SDK may raise into the code:
google.cloud.exceptions.NotFound, google.cloud.exceptions.Forbidden, or any
other Exception. -/
inductive ExtKind where
  | notFound
  | forbidden
  | other
  deriving DecidableEq, Repr

/-- A failure of the external collaborator: its exception kind and the string
that `str(e)` produces for it. -/
structure ExtFailure where
  kind : ExtKind
  msg : String
  deriving DecidableEq, Repr

/-- The process environment variables read or written by the code.
`none` models an unset variable. -/
structure Env where
  gcsBucketName : Option String
  googleCloudProject : Option String
  gceMetadataHost : Option String
  googleCloudDisableGrpc : Option String
  googleApplicationCredentials : Option String
  deriving DecidableEq, Repr

/-- Python truthiness of `os.getenv(...)`: an unset variable is None (falsy)
and an empty string is falsy; the code guards with `if not value:`. -/
def envTruthy : Option String → Bool
  | none => false
  | some s => !(s == "")

/-- The local filesystem, as observed by `os.path.exists`. -/
abbrev FS := String → Bool

/-- Characters of the current path component: scanning left to right, a
slash discards everything seen so far, any other character is kept. -/
def basenameAux : List Char → List Char → List Char
  | cur, [] => cur
  | cur, c :: rest =>
      if c = '/' then basenameAux [] rest else basenameAux (cur ++ [c]) rest

/-- The base name of a path, as computed by `os.path.basename` on a POSIX
system: everything after the last slash. -/
def basename (p : String) : String :=
  String.mk (basenameAux [] p.data)

/-- One interaction with the external object store, recorded in order:
client construction, bucket access, a blob upload to a key, an existence
query for a key, or a signed-url request for a key with the version, HTTP
method and expiration (in minutes) the code passes. -/
inductive StoreEvent where
  | clientInit
  | bucketAccess
  | upload (key : String)
  | existsQuery (key : String)
  | sign (key : String) (version : String) (method : String) (ttlMinutes : Nat)
  deriving DecidableEq, Repr

/-- Oracle for the behavior of the external collaborators in one call:
which SDK invocations fail and with what, which object keys exist, and the
url the signing facility would return for a key. `clientInit` is the
storage.Client construction of the main variant; `credsChain` is the simple
variant's google.auth.default plus client-with-credentials attempt, and
`plainClient` its fallback Client construction. -/
structure Store where
  clientInit : Option ExtFailure
  credsChain : Option ExtFailure
  plainClient : Option ExtFailure
  bucketAccess : Option ExtFailure
  uploadTo : String → Option ExtFailure
  existsAt : String → Bool
  signAt : String → Option ExtFailure
  signUrl : String → String

/-- The observable outcome of one operation: the value returned or exception
raised, the ordered store interactions, the lines printed, and the process
environment after the call. -/
structure OpOutcome (α : Type) where
  result : Except PyErr α
  events : List StoreEvent
  prints : List String
  envAfter : Env

/-- The environment mutation the simple variant performs before touching the
SDK: sets GCE_METADATA_HOST to an unreachable address, sets
GOOGLE_CLOUD_DISABLE_GRPC, and removes GOOGLE_APPLICATION_CREDENTIALS. -/
def envAfterDisableMetadata (env : Env) : Env :=
  { env with
    gceMetadataHost := some ("169.254.169.255")
    googleCloudDisableGrpc := some ("true")
    googleApplicationCredentials := none }

/-- The object-key formula stated by the spec: the exact concatenation
of the literal prefix, the organization id, a slash and the file name. -/
def specComputeKey (organizationId fileName : String) : String :=
  "prod_org_" ++ organizationId ++ "/" ++ fileName

/-- The expiry timestamp of a signed link issued at `issuedAt` with a
time-to-live of `ttlMinutes` minutes, as the spec describes SignedLink. -/
def signedLinkExpiry (issuedAt ttlMinutes : Nat) : Nat :=
  issuedAt + ttlMinutes * 60

/-- Embedding of `upload_secure_document` from upload_secure_document.py:
checks GCS_BUCKET_NAME, then GOOGLE_CLOUD_PROJECT, then the local file;
constructs the client (any failure re-raised as PermissionError), accesses
the bucket (NotFound re-raised as a bare Exception, Forbidden as
PermissionError, anything else as a bare Exception), computes the
destination blob name from the basename, uploads (Forbidden re-raised as
PermissionError, anything else as a bare Exception), prints the success
message, and returns None. -/
def uploadSecureDocument (env : Env) (fs : FS) (store : Store)
    (organizationId filePath : String) : OpOutcome (Option String) :=
  if !(envTruthy env.gcsBucketName) then
    ⟨.error ⟨.valueError, "GCS_BUCKET_NAME environment variable is not set or is empty"⟩,
     [], [], env⟩
  else if !(envTruthy env.googleCloudProject) then
    ⟨.error ⟨.valueError, "GOOGLE_CLOUD_PROJECT environment variable is not set"⟩,
     [], [], env⟩
  else if !(fs filePath) then
    ⟨.error ⟨.fileNotFound, "File not found: " ++ filePath⟩, [], [], env⟩
  else
    let bucketName := env.gcsBucketName.getD ("")
    match store.clientInit with
    | some e =>
        ⟨.error ⟨.permissionError,
            "Failed to initialize Google Cloud Storage client: " ++ e.msg⟩,
         [.clientInit], [], env⟩
    | none =>
      match store.bucketAccess with
      | some e =>
          match e.kind with
          | .notFound =>
              ⟨.error ⟨.generic, "Bucket \x27" ++ bucketName ++ "\x27 not found"⟩,
               [.clientInit, .bucketAccess], [], env⟩
          | .forbidden =>
              ⟨.error ⟨.permissionError,
                  "Permission denied accessing bucket \x27" ++ bucketName ++ "\x27"⟩,
               [.clientInit, .bucketAccess], [], env⟩
          | .other =>
              ⟨.error ⟨.generic, "Failed to access bucket: " ++ e.msg⟩,
               [.clientInit, .bucketAccess], [], env⟩
      | none =>
        let fileName := basename filePath
        let destinationBlobName := "prod_org_" ++ organizationId ++ "/" ++ fileName
        match store.uploadTo destinationBlobName with
        | some e =>
            match e.kind with
            | .forbidden =>
                ⟨.error ⟨.permissionError,
                    "Permission denied uploading to bucket \x27" ++ bucketName ++ "\x27"⟩,
                 [.clientInit, .bucketAccess, .upload destinationBlobName], [], env⟩
            | _ =>
                ⟨.error ⟨.generic, "Failed to upload file: " ++ e.msg⟩,
                 [.clientInit, .bucketAccess, .upload destinationBlobName], [], env⟩
        | none =>
            ⟨.ok none,
             [.clientInit, .bucketAccess, .upload destinationBlobName],
             ["File uploaded successfully to blob: " ++ destinationBlobName], env⟩

/-- Embedding of `get_secure_document_url` from upload_secure_document.py:
checks GCS_BUCKET_NAME then GOOGLE_CLOUD_PROJECT; constructs the client and
accesses the bucket with the same exception translation as the upload;
computes the blob name; raises NotFound directly (outside any handler) when
the existence query reports the blob absent; otherwise requests a v4 signed
url with a 15-minute expiration and method GET (Forbidden re-raised as
PermissionError, anything else as a bare Exception) and returns the url. -/
def getSecureDocumentUrl (env : Env) (store : Store)
    (organizationId fileName : String) : OpOutcome String :=
  if !(envTruthy env.gcsBucketName) then
    ⟨.error ⟨.valueError, "GCS_BUCKET_NAME environment variable is not set or is empty"⟩,
     [], [], env⟩
  else if !(envTruthy env.googleCloudProject) then
    ⟨.error ⟨.valueError, "GOOGLE_CLOUD_PROJECT environment variable is not set"⟩,
     [], [], env⟩
  else
    let bucketName := env.gcsBucketName.getD ("")
    match store.clientInit with
    | some e =>
        ⟨.error ⟨.permissionError,
            "Failed to initialize Google Cloud Storage client: " ++ e.msg⟩,
         [.clientInit], [], env⟩
    | none =>
      match store.bucketAccess with
      | some e =>
          match e.kind with
          | .notFound =>
              ⟨.error ⟨.generic, "Bucket \x27" ++ bucketName ++ "\x27 not found"⟩,
               [.clientInit, .bucketAccess], [], env⟩
          | .forbidden =>
              ⟨.error ⟨.permissionError,
                  "Permission denied accessing bucket \x27" ++ bucketName ++ "\x27"⟩,
               [.clientInit, .bucketAccess], [], env⟩
          | .other =>
              ⟨.error ⟨.generic, "Failed to access bucket: " ++ e.msg⟩,
               [.clientInit, .bucketAccess], [], env⟩
      | none =>
        let blobName := "prod_org_" ++ organizationId ++ "/" ++ fileName
        if !(store.existsAt blobName) then
          ⟨.error ⟨.notFound, "File not found: " ++ blobName⟩,
           [.clientInit, .bucketAccess, .existsQuery blobName], [], env⟩
        else
          match store.signAt blobName with
          | some e =>
              match e.kind with
              | .forbidden =>
                  ⟨.error ⟨.permissionError,
                      "Permission denied generating URL for blob \x27" ++ blobName ++ "\x27"⟩,
                   [.clientInit, .bucketAccess, .existsQuery blobName,
                    .sign blobName ("v4") ("GET") 15], [], env⟩
              | _ =>
                  ⟨.error ⟨.generic, "Failed to generate signed URL: " ++ e.msg⟩,
                   [.clientInit, .bucketAccess, .existsQuery blobName,
                    .sign blobName ("v4") ("GET") 15], [], env⟩
          | none =>
              ⟨.ok (store.signUrl blobName),
               [.clientInit, .bucketAccess, .existsQuery blobName,
                .sign blobName ("v4") ("GET") 15], [], env⟩

/-- Embedding of `upload_secure_document` from
upload_secure_document_simple.py: same three precondition checks (with the
shorter bucket message); then mutates the environment to disable metadata
detection; constructs the client through the credentials fallback chain (any
failure of the fallback re-raised as PermissionError); then one handler
wraps bucket access and upload, re-raising any failure as a bare Exception;
prints the success message and returns None. -/
def uploadSecureDocumentSimple (env : Env) (fs : FS) (store : Store)
    (organizationId filePath : String) : OpOutcome (Option String) :=
  if !(envTruthy env.gcsBucketName) then
    ⟨.error ⟨.valueError, "GCS_BUCKET_NAME environment variable is not set"⟩,
     [], [], env⟩
  else if !(envTruthy env.googleCloudProject) then
    ⟨.error ⟨.valueError, "GOOGLE_CLOUD_PROJECT environment variable is not set"⟩,
     [], [], env⟩
  else if !(fs filePath) then
    ⟨.error ⟨.fileNotFound, "File not found: " ++ filePath⟩, [], [], env⟩
  else
    let env2 := envAfterDisableMetadata env
    let clientFailure :=
      match store.credsChain with
      | none => none
      | some _ => store.plainClient
    match clientFailure with
    | some e =>
        ⟨.error ⟨.permissionError,
            "Failed to initialize Google Cloud Storage: " ++ e.msg⟩,
         [.clientInit], [], env2⟩
    | none =>
      match store.bucketAccess with
      | some e =>
          ⟨.error ⟨.generic, "Failed to upload file: " ++ e.msg⟩,
           [.clientInit, .bucketAccess], [], env2⟩
      | none =>
        let fileName := basename filePath
        let destinationBlobName := "prod_org_" ++ organizationId ++ "/" ++ fileName
        match store.uploadTo destinationBlobName with
        | some e =>
            ⟨.error ⟨.generic, "Failed to upload file: " ++ e.msg⟩,
             [.clientInit, .bucketAccess, .upload destinationBlobName], [], env2⟩
        | none =>
            ⟨.ok none,
             [.clientInit, .bucketAccess, .upload destinationBlobName],
             ["File uploaded successfully to blob: " ++ destinationBlobName], env2⟩

/-- Embedding of `get_secure_document_url` from
upload_secure_document_simple.py: precondition checks, environment mutation
and fallback client construction as in the simple upload; then a single
handler wraps bucket access, the existence check and signing, so the
FileNotFoundError raised for an absent blob is itself caught and re-raised
as a bare Exception, as is every SDK failure in that block. -/
def getSecureDocumentUrlSimple (env : Env) (store : Store)
    (organizationId fileName : String) : OpOutcome String :=
  if !(envTruthy env.gcsBucketName) then
    ⟨.error ⟨.valueError, "GCS_BUCKET_NAME environment variable is not set"⟩,
     [], [], env⟩
  else if !(envTruthy env.googleCloudProject) then
    ⟨.error ⟨.valueError, "GOOGLE_CLOUD_PROJECT environment variable is not set"⟩,
     [], [], env⟩
  else
    let env2 := envAfterDisableMetadata env
    let clientFailure :=
      match store.credsChain with
      | none => none
      | some _ => store.plainClient
    match clientFailure with
    | some e =>
        ⟨.error ⟨.permissionError,
            "Failed to initialize Google Cloud Storage: " ++ e.msg⟩,
         [.clientInit], [], env2⟩
    | none =>
      match store.bucketAccess with
      | some e =>
          ⟨.error ⟨.generic, "Failed to generate signed URL: " ++ e.msg⟩,
           [.clientInit, .bucketAccess], [], env2⟩
      | none =>
        let blobName := "prod_org_" ++ organizationId ++ "/" ++ fileName
        if !(store.existsAt blobName) then
          ⟨.error ⟨.generic,
              "Failed to generate signed URL: " ++ ("File not found: " ++ blobName)⟩,
           [.clientInit, .bucketAccess, .existsQuery blobName], [], env2⟩
        else
          match store.signAt blobName with
          | some e =>
              ⟨.error ⟨.generic, "Failed to generate signed URL: " ++ e.msg⟩,
               [.clientInit, .bucketAccess, .existsQuery blobName,
                .sign blobName ("v4") ("GET") 15], [], env2⟩
          | none =>
              ⟨.ok (store.signUrl blobName),
               [.clientInit, .bucketAccess, .existsQuery blobName,
                .sign blobName ("v4") ("GET") 15], [], env2⟩

/-- The effect of one store interaction on an in-memory store state (the set
of keys that exist): an upload makes its key exist; nothing else changes the
state. -/
def applyEvent (s : String → Bool) : StoreEvent → (String → Bool)
  | .upload k => fun q => q == k || s q
  | _ => s

/-- The in-memory store state after a trace of interactions. -/
def applyEvents (s : String → Bool) (es : List StoreEvent) : String → Bool :=
  es.foldl applyEvent s

/-- The kind of the exception an outcome raised, if it raised one. -/
def errKindOf {α : Type} : Except PyErr α → Option PyErrKind
  | .error e => some e.kind
  | .ok _ => none

/-- A fully configured environment used as a concrete test fixture. -/
def demoEnv : Env :=
  { gcsBucketName := some ("b1")
    googleCloudProject := some ("p1")
    gceMetadataHost := none
    googleCloudDisableGrpc := none
    googleApplicationCredentials := some ("/creds.json") }

/-- A filesystem fixture on which exactly /tmp/report.pdf exists. -/
def demoFs : FS := fun p => p == "/tmp/report.pdf"

/-- A store fixture on which every SDK call succeeds and every key exists. -/
def demoStore : Store :=
  { clientInit := none
    credsChain := none
    plainClient := none
    bucketAccess := none
    uploadTo := fun _ => none
    existsAt := fun _ => true
    signAt := fun _ => none
    signUrl := fun k => "https://storage.example/" ++ k }

/-- A store fixture on which bucket access fails with NotFound. -/
def storeBucketMissing : Store :=
  { demoStore with bucketAccess := some ⟨ExtKind.notFound, "404 bucket"⟩ }

/-- A store fixture on which client construction fails with an ordinary
(non-NotFound, non-Forbidden) failure. -/
def storeClientFail : Store :=
  { demoStore with clientInit := some ⟨ExtKind.other, "boom"⟩ }

/-- A store fixture on which every SDK call succeeds but no key exists. -/
def storeNothingStored : Store :=
  { demoStore with existsAt := fun _ => false }

/-- An environment fixture with the bucket name unset. -/
def envNoBucket : Env :=
  { demoEnv with gcsBucketName := none }

/-- An environment fixture with the bucket set but the project unset. -/
def envNoProject : Env :=
  { demoEnv with googleCloudProject := none }

/-- Claim C1: for every pair of strings, the object key computed by both
operations (the upload of one path and the url request for one file name)
equals exactly the concatenation "prod_org_" ++ organization_id ++ "/" ++
file_name with no other transformation, so for a fixed pair the key is
always the same: the store interaction recorded for each operation targets
exactly `specComputeKey`. -/
theorem C1_object_key_formula (env : Env) (fs : FS) (store : Store)
    (organizationId fileName filePath : String)
    (hb : envTruthy env.gcsBucketName = true)
    (hp : envTruthy env.googleCloudProject = true)
    (hf : fs filePath = true)
    (hc : store.clientInit = none)
    (ha : store.bucketAccess = none) :
    StoreEvent.existsQuery (specComputeKey organizationId fileName)
        ∈ (getSecureDocumentUrl env store organizationId fileName).events
    ∧ StoreEvent.upload (specComputeKey organizationId (basename filePath))
        ∈ (uploadSecureDocument env fs store organizationId filePath).events := by
  constructor
  · unfold getSecureDocumentUrl
    simp only [hb, hp, hc, ha, specComputeKey, Bool.not_true, Bool.false_eq_true,
      if_false]
    cases hq : store.existsAt ("prod_org_" ++ organizationId ++ "/" ++ fileName) with
    | false => simp [hq]
    | true =>
      cases hs : store.signAt ("prod_org_" ++ organizationId ++ "/" ++ fileName) with
      | none => simp [hq, hs]
      | some e =>
        obtain ⟨k, m⟩ := e
        cases k <;> simp [hq, hs]
  · unfold uploadSecureDocument
    simp only [hb, hp, hf, hc, ha, specComputeKey, Bool.not_true, Bool.false_eq_true,
      if_false]
    cases hu : store.uploadTo ("prod_org_" ++ organizationId ++ "/" ++ basename filePath) with
    | none => simp [hu]
    | some e =>
      obtain ⟨k, m⟩ := e
      cases k <;> simp [hu]

/-- Witness for C1 at a concrete environment, filesystem and store. -/
theorem C1_object_key_formula_witness :
    StoreEvent.existsQuery ("prod_org_org-7/report.pdf")
        ∈ (getSecureDocumentUrl demoEnv demoStore ("org-7") ("report.pdf")).events
    ∧ StoreEvent.upload ("prod_org_org-7/report.pdf")
        ∈ (uploadSecureDocument demoEnv demoFs demoStore ("org-7") ("/tmp/report.pdf")).events := by
  have h := C1_object_key_formula demoEnv demoFs demoStore ("org-7") ("report.pdf")
    ("/tmp/report.pdf") rfl rfl rfl rfl rfl
  have e1 : specComputeKey ("org-7") ("report.pdf") = "prod_org_org-7/report.pdf" := rfl
  have e2 : specComputeKey ("org-7") (basename ("/tmp/report.pdf"))
      = "prod_org_org-7/report.pdf" := rfl
  exact ⟨e1 ▸ h.1, e2 ▸ h.2⟩

/-- Counterexample to claim C2: a NotFound failure of the external
collaborator during bucket access is re-raised by `upload_secure_document`
as a bare Exception (kind `generic`), not as a NotFound-kinded error, so the
error is translated into a generic failure after the fact. -/
theorem C2_error_translation_counterexample :
    ((uploadSecureDocument demoEnv demoFs storeBucketMissing ("org-7")
        ("/tmp/report.pdf")).result
      = Except.error ⟨PyErrKind.generic, "Bucket \x27b1\x27 not found"⟩)
    ∧ PyErrKind.generic ≠ PyErrKind.notFound := by
  exact ⟨rfl, by decide⟩

/-- Claim C2 (amended): errors of external collaborators are not propagated
unchanged in kind by `upload_secure_document`: any failure of client
construction is re-raised as PermissionError; a NotFound failure of bucket
access is re-raised as a bare Exception; a failure of the upload that is
neither NotFound nor Forbidden is re-raised as a bare Exception. Only the
precondition failures and, in the main variant of `get_secure_document_url`,
the absent-object NotFound keep their kind. -/
theorem C2_error_translation_amended (env : Env) (fs : FS) (store : Store)
    (organizationId filePath : String)
    (hb : envTruthy env.gcsBucketName = true)
    (hp : envTruthy env.googleCloudProject = true)
    (hf : fs filePath = true) :
    (∀ e : ExtFailure, store.clientInit = some e →
        (uploadSecureDocument env fs store organizationId filePath).result
          = Except.error ⟨PyErrKind.permissionError,
              "Failed to initialize Google Cloud Storage client: " ++ e.msg⟩)
    ∧ (∀ e : ExtFailure, store.clientInit = none → store.bucketAccess = some e →
        e.kind = ExtKind.notFound →
        (uploadSecureDocument env fs store organizationId filePath).result
          = Except.error ⟨PyErrKind.generic,
              "Bucket \x27" ++ env.gcsBucketName.getD ("") ++ "\x27 not found"⟩)
    ∧ (∀ e : ExtFailure, store.clientInit = none → store.bucketAccess = none →
        store.uploadTo ("prod_org_" ++ organizationId ++ "/" ++ basename filePath)
          = some e →
        e.kind = ExtKind.other →
        (uploadSecureDocument env fs store organizationId filePath).result
          = Except.error ⟨PyErrKind.generic, "Failed to upload file: " ++ e.msg⟩) := by
  refine ⟨?_, ?_, ?_⟩
  · intro e he
    unfold uploadSecureDocument
    simp [hb, hp, hf, he]
  · intro e hc ha hk
    obtain ⟨k, m⟩ := e
    cases hk
    unfold uploadSecureDocument
    simp [hb, hp, hf, hc, ha]
  · intro e hc ha hu hk
    obtain ⟨k, m⟩ := e
    cases hk
    unfold uploadSecureDocument
    simp [hb, hp, hf, hc, ha, hu]

/-- Witness for C2 (amended) at a concrete store whose client construction
fails with an ordinary exception. -/
theorem C2_error_translation_amended_witness :
    (uploadSecureDocument demoEnv demoFs storeClientFail ("org-7")
        ("/tmp/report.pdf")).result
      = Except.error ⟨PyErrKind.permissionError,
          "Failed to initialize Google Cloud Storage client: boom"⟩ := by
  have h := (C2_error_translation_amended demoEnv demoFs storeClientFail ("org-7")
    ("/tmp/report.pdf") rfl rfl rfl).1 ⟨ExtKind.other, "boom"⟩ rfl
  exact h

/-- Counterexample to claim C3: a fully successful call of
`upload_secure_document` returns None (modelled as `Except.ok none`), not
the object key string that was used for the write. -/
theorem C3_put_return_counterexample :
    ((uploadSecureDocument demoEnv demoFs demoStore ("org-7")
        ("/tmp/report.pdf")).result = Except.ok none)
    ∧ (uploadSecureDocument demoEnv demoFs demoStore ("org-7")
        ("/tmp/report.pdf")).result
        ≠ Except.ok (some ("prod_org_org-7/report.pdf")) := by
  constructor
  · rfl
  · intro h
    have h2 : (Except.ok (none : Option String) : Except PyErr (Option String))
        = Except.ok (some ("prod_org_org-7/report.pdf")) := h
    simp at h2

/-- Claim C3 (amended): a successful call of `upload_secure_document`
returns None, and the object key actually used for the write (the string
"prod_org_" ++ organization_id ++ "/" ++ basename local_path) is reported
only by printing the success message containing it. -/
theorem C3_put_return_amended (env : Env) (fs : FS) (store : Store)
    (organizationId filePath : String)
    (hb : envTruthy env.gcsBucketName = true)
    (hp : envTruthy env.googleCloudProject = true)
    (hf : fs filePath = true)
    (hc : store.clientInit = none)
    (ha : store.bucketAccess = none)
    (hu : store.uploadTo ("prod_org_" ++ organizationId ++ "/" ++ basename filePath)
        = none) :
    ((uploadSecureDocument env fs store organizationId filePath).result
        = Except.ok none)
    ∧ (uploadSecureDocument env fs store organizationId filePath).prints
        = ["File uploaded successfully to blob: "
            ++ ("prod_org_" ++ organizationId ++ "/" ++ basename filePath)] := by
  unfold uploadSecureDocument
  simp [hb, hp, hf, hc, ha, hu]

/-- Witness for C3 (amended) at the concrete fixtures. -/
theorem C3_put_return_amended_witness :
    ((uploadSecureDocument demoEnv demoFs demoStore ("org-7")
        ("/tmp/report.pdf")).result = Except.ok none)
    ∧ (uploadSecureDocument demoEnv demoFs demoStore ("org-7")
        ("/tmp/report.pdf")).prints
        = ["File uploaded successfully to blob: "
            ++ ("prod_org_" ++ ("org-7") ++ "/" ++ basename ("/tmp/report.pdf"))] := by
  have h := C3_put_return_amended demoEnv demoFs demoStore ("org-7")
    ("/tmp/report.pdf") rfl rfl rfl rfl rfl rfl
  exact h

/-- Counterexample to claim C4: in the simple variant the existence query
for a never-written key reports the object absent, but the
FileNotFoundError raised for it is caught by the surrounding catch-all
handler and re-raised as a bare Exception (kind `generic`), so the call
does not fail with a NotFound-kinded error. -/
theorem C4_missing_object_counterexample :
    ((getSecureDocumentUrlSimple demoEnv storeNothingStored ("org-7")
        ("report.pdf")).result
      = Except.error ⟨PyErrKind.generic,
          "Failed to generate signed URL: File not found: prod_org_org-7/report.pdf"⟩)
    ∧ PyErrKind.generic ≠ PyErrKind.fileNotFound
    ∧ PyErrKind.generic ≠ PyErrKind.notFound
    ∧ StoreEvent.existsQuery ("prod_org_org-7/report.pdf")
        ∈ (getSecureDocumentUrlSimple demoEnv storeNothingStored ("org-7")
            ("report.pdf")).events := by
  refine ⟨rfl, by decide, by decide, ?_⟩
  simp [getSecureDocumentUrlSimple, demoEnv, storeNothingStored, demoStore,
    envTruthy]

/-- Claim C4 (amended): on a never-written key whose existence query reports
the object absent, `get_secure_document_url` of upload_secure_document.py
raises NotFound directly, while the simple variant catches its own
FileNotFoundError and re-raises it as a bare Exception whose message embeds
the original not-found message. -/
theorem C4_missing_object_amended (env : Env) (store : Store)
    (organizationId fileName : String)
    (hb : envTruthy env.gcsBucketName = true)
    (hp : envTruthy env.googleCloudProject = true)
    (hc : store.clientInit = none)
    (hcc : store.credsChain = none)
    (ha : store.bucketAccess = none)
    (hex : store.existsAt ("prod_org_" ++ organizationId ++ "/" ++ fileName)
        = false) :
    ((getSecureDocumentUrl env store organizationId fileName).result
      = Except.error ⟨PyErrKind.notFound,
          "File not found: " ++ ("prod_org_" ++ organizationId ++ "/" ++ fileName)⟩)
    ∧ ((getSecureDocumentUrlSimple env store organizationId fileName).result
      = Except.error ⟨PyErrKind.generic,
          "Failed to generate signed URL: "
            ++ ("File not found: "
                ++ ("prod_org_" ++ organizationId ++ "/" ++ fileName))⟩) := by
  constructor
  · unfold getSecureDocumentUrl
    simp [hb, hp, hc, ha, hex]
  · unfold getSecureDocumentUrlSimple
    simp [hb, hp, hcc, ha, hex]

/-- Witness for C4 (amended) at the concrete fixtures with an empty store. -/
theorem C4_missing_object_amended_witness :
    ((getSecureDocumentUrl demoEnv storeNothingStored ("org-7")
        ("report.pdf")).result
      = Except.error ⟨PyErrKind.notFound,
          "File not found: prod_org_org-7/report.pdf"⟩)
    ∧ ((getSecureDocumentUrlSimple demoEnv storeNothingStored ("org-7")
        ("report.pdf")).result
      = Except.error ⟨PyErrKind.generic,
          "Failed to generate signed URL: File not found: prod_org_org-7/report.pdf"⟩) := by
  have h := C4_missing_object_amended demoEnv storeNothingStored ("org-7")
    ("report.pdf") rfl rfl rfl rfl rfl rfl
  exact h

/-- Claim C5: when the object exists, `get_secure_document_url` returns the
url the signing facility produces for the key, and the one signing request
it makes is a v4 request scoped to the HTTP GET method only with an
expiration of exactly 15 minutes, so the link issued at any time expires
exactly 15 minutes (900 seconds) after issuance. -/
theorem C5_signed_url_get_only_15min (env : Env) (store : Store) (now : Nat)
    (organizationId fileName : String)
    (hb : envTruthy env.gcsBucketName = true)
    (hp : envTruthy env.googleCloudProject = true)
    (hc : store.clientInit = none)
    (ha : store.bucketAccess = none)
    (hex : store.existsAt ("prod_org_" ++ organizationId ++ "/" ++ fileName)
        = true)
    (hs : store.signAt ("prod_org_" ++ organizationId ++ "/" ++ fileName)
        = none) :
    ((getSecureDocumentUrl env store organizationId fileName).result
      = Except.ok (store.signUrl ("prod_org_" ++ organizationId ++ "/" ++ fileName)))
    ∧ ((getSecureDocumentUrl env store organizationId fileName).events
      = [StoreEvent.clientInit, StoreEvent.bucketAccess,
         StoreEvent.existsQuery ("prod_org_" ++ organizationId ++ "/" ++ fileName),
         StoreEvent.sign ("prod_org_" ++ organizationId ++ "/" ++ fileName)
           ("v4") ("GET") 15])
    ∧ signedLinkExpiry now 15 = now + 900 := by
  refine ⟨?_, ?_, rfl⟩
  · unfold getSecureDocumentUrl
    simp [hb, hp, hc, ha, hex, hs]
  · unfold getSecureDocumentUrl
    simp [hb, hp, hc, ha, hex, hs]

/-- Witness for C5 at the concrete fixtures, with issuance time 1000. -/
theorem C5_signed_url_get_only_15min_witness :
    ((getSecureDocumentUrl demoEnv demoStore ("org-7") ("report.pdf")).result
      = Except.ok ("https://storage.example/prod_org_org-7/report.pdf"))
    ∧ ((getSecureDocumentUrl demoEnv demoStore ("org-7") ("report.pdf")).events
      = [StoreEvent.clientInit, StoreEvent.bucketAccess,
         StoreEvent.existsQuery ("prod_org_org-7/report.pdf"),
         StoreEvent.sign ("prod_org_org-7/report.pdf") ("v4") ("GET") 15])
    ∧ signedLinkExpiry 1000 15 = 1900 := by
  have h := C5_signed_url_get_only_15min demoEnv demoStore 1000 ("org-7")
    ("report.pdf") rfl rfl rfl rfl rfl rfl
  exact h

/-- Claim C6: in both variants, a call of `upload_secure_document` whose
local path does not exist fails with FileNotFoundError and performs zero
interactions with the external store (no client construction, no bucket
access, no write); the simple variant has not yet mutated the environment
either. -/
theorem C6_put_missing_local_file (env : Env) (fs : FS) (store : Store)
    (organizationId filePath : String)
    (hb : envTruthy env.gcsBucketName = true)
    (hp : envTruthy env.googleCloudProject = true)
    (hf : fs filePath = false) :
    ((uploadSecureDocument env fs store organizationId filePath).result
      = Except.error ⟨PyErrKind.fileNotFound, "File not found: " ++ filePath⟩)
    ∧ (uploadSecureDocument env fs store organizationId filePath).events = []
    ∧ ((uploadSecureDocumentSimple env fs store organizationId filePath).result
      = Except.error ⟨PyErrKind.fileNotFound, "File not found: " ++ filePath⟩)
    ∧ (uploadSecureDocumentSimple env fs store organizationId filePath).events = []
    ∧ (uploadSecureDocumentSimple env fs store organizationId filePath).envAfter
      = env := by
  refine ⟨?_, ?_, ?_, ?_, ?_⟩ <;>
    simp [uploadSecureDocument, uploadSecureDocumentSimple, hb, hp, hf]

/-- Witness for C6 at the concrete fixtures and a path that does not exist. -/
theorem C6_put_missing_local_file_witness :
    ((uploadSecureDocument demoEnv demoFs demoStore ("org-7")
        ("/tmp/missing.pdf")).result
      = Except.error ⟨PyErrKind.fileNotFound, "File not found: /tmp/missing.pdf"⟩)
    ∧ (uploadSecureDocument demoEnv demoFs demoStore ("org-7")
        ("/tmp/missing.pdf")).events = []
    ∧ ((uploadSecureDocumentSimple demoEnv demoFs demoStore ("org-7")
        ("/tmp/missing.pdf")).result
      = Except.error ⟨PyErrKind.fileNotFound, "File not found: /tmp/missing.pdf"⟩)
    ∧ (uploadSecureDocumentSimple demoEnv demoFs demoStore ("org-7")
        ("/tmp/missing.pdf")).events = []
    ∧ (uploadSecureDocumentSimple demoEnv demoFs demoStore ("org-7")
        ("/tmp/missing.pdf")).envAfter = demoEnv := by
  have h := C6_put_missing_local_file demoEnv demoFs demoStore ("org-7")
    ("/tmp/missing.pdf") rfl rfl rfl
  exact h

/-- Claim C7: whenever GCS_BUCKET_NAME is unset or set to the empty string,
every operation of both variants fails with ValueError (the taxonomy's
ConfigurationError) and records zero interactions with the external store,
so the failure occurs before any store interaction. -/
theorem C7_missing_bucket_config (env : Env) (fs : FS) (store : Store)
    (organizationId filePath fileName : String)
    (hb : env.gcsBucketName = none ∨ env.gcsBucketName = some ("")) :
    (errKindOf (uploadSecureDocument env fs store organizationId filePath).result
      = some PyErrKind.valueError)
    ∧ (uploadSecureDocument env fs store organizationId filePath).events = []
    ∧ (errKindOf (getSecureDocumentUrl env store organizationId fileName).result
      = some PyErrKind.valueError)
    ∧ (getSecureDocumentUrl env store organizationId fileName).events = []
    ∧ (errKindOf (uploadSecureDocumentSimple env fs store organizationId
        filePath).result = some PyErrKind.valueError)
    ∧ (uploadSecureDocumentSimple env fs store organizationId filePath).events = []
    ∧ (errKindOf (getSecureDocumentUrlSimple env store organizationId
        fileName).result = some PyErrKind.valueError)
    ∧ (getSecureDocumentUrlSimple env store organizationId fileName).events
      = [] := by
  have hb2 : envTruthy env.gcsBucketName = false := by
    rcases hb with h | h <;> simp [h, envTruthy]
  refine ⟨?_, ?_, ?_, ?_, ?_, ?_, ?_, ?_⟩ <;>
    simp [uploadSecureDocument, getSecureDocumentUrl, uploadSecureDocumentSimple,
      getSecureDocumentUrlSimple, hb2, errKindOf]

/-- Witness for C7 with the bucket variable unset. -/
theorem C7_missing_bucket_config_witness :
    (errKindOf (uploadSecureDocument envNoBucket demoFs demoStore ("org-7")
        ("/tmp/report.pdf")).result = some PyErrKind.valueError)
    ∧ (uploadSecureDocument envNoBucket demoFs demoStore ("org-7")
        ("/tmp/report.pdf")).events = []
    ∧ (errKindOf (getSecureDocumentUrl envNoBucket demoStore ("org-7")
        ("report.pdf")).result = some PyErrKind.valueError)
    ∧ (getSecureDocumentUrl envNoBucket demoStore ("org-7")
        ("report.pdf")).events = []
    ∧ (errKindOf (uploadSecureDocumentSimple envNoBucket demoFs demoStore
        ("org-7") ("/tmp/report.pdf")).result = some PyErrKind.valueError)
    ∧ (uploadSecureDocumentSimple envNoBucket demoFs demoStore ("org-7")
        ("/tmp/report.pdf")).events = []
    ∧ (errKindOf (getSecureDocumentUrlSimple envNoBucket demoStore ("org-7")
        ("report.pdf")).result = some PyErrKind.valueError)
    ∧ (getSecureDocumentUrlSimple envNoBucket demoStore ("org-7")
        ("report.pdf")).events = [] := by
  have h := C7_missing_bucket_config envNoBucket demoFs demoStore ("org-7")
    ("/tmp/report.pdf") ("report.pdf") (Or.inl rfl)
  exact h

/-- Claim C10: both operations in both variants also require
GOOGLE_CLOUD_PROJECT and fail with ValueError when it is absent or empty
even with the bucket set; the configuration checks are ordered so that a
falsy bucket value is reported first regardless of the other preconditions,
and the project check runs before the local-file check in the uploads, with
no store interaction in any of these failures. -/
theorem C10_config_check_order (env : Env) (fs : FS) (store : Store)
    (organizationId filePath fileName : String) :
    (envTruthy env.gcsBucketName = false →
      ((uploadSecureDocument env fs store organizationId filePath).result
        = Except.error ⟨PyErrKind.valueError,
            "GCS_BUCKET_NAME environment variable is not set or is empty"⟩)
      ∧ ((getSecureDocumentUrl env store organizationId fileName).result
        = Except.error ⟨PyErrKind.valueError,
            "GCS_BUCKET_NAME environment variable is not set or is empty"⟩)
      ∧ ((uploadSecureDocumentSimple env fs store organizationId filePath).result
        = Except.error ⟨PyErrKind.valueError,
            "GCS_BUCKET_NAME environment variable is not set"⟩)
      ∧ ((getSecureDocumentUrlSimple env store organizationId fileName).result
        = Except.error ⟨PyErrKind.valueError,
            "GCS_BUCKET_NAME environment variable is not set"⟩))
    ∧ (envTruthy env.gcsBucketName = true →
       envTruthy env.googleCloudProject = false →
      ((uploadSecureDocument env fs store organizationId filePath).result
        = Except.error ⟨PyErrKind.valueError,
            "GOOGLE_CLOUD_PROJECT environment variable is not set"⟩)
      ∧ (uploadSecureDocument env fs store organizationId filePath).events = []
      ∧ ((getSecureDocumentUrl env store organizationId fileName).result
        = Except.error ⟨PyErrKind.valueError,
            "GOOGLE_CLOUD_PROJECT environment variable is not set"⟩)
      ∧ (getSecureDocumentUrl env store organizationId fileName).events = []
      ∧ ((uploadSecureDocumentSimple env fs store organizationId filePath).result
        = Except.error ⟨PyErrKind.valueError,
            "GOOGLE_CLOUD_PROJECT environment variable is not set"⟩)
      ∧ (uploadSecureDocumentSimple env fs store organizationId filePath).events
        = []
      ∧ ((getSecureDocumentUrlSimple env store organizationId fileName).result
        = Except.error ⟨PyErrKind.valueError,
            "GOOGLE_CLOUD_PROJECT environment variable is not set"⟩)
      ∧ (getSecureDocumentUrlSimple env store organizationId fileName).events
        = []) := by
  constructor
  · intro hb
    refine ⟨?_, ?_, ?_, ?_⟩ <;>
      simp [uploadSecureDocument, getSecureDocumentUrl,
        uploadSecureDocumentSimple, getSecureDocumentUrlSimple, hb]
  · intro hb hp
    refine ⟨?_, ?_, ?_, ?_, ?_, ?_, ?_, ?_⟩ <;>
      simp [uploadSecureDocument, getSecureDocumentUrl,
        uploadSecureDocumentSimple, getSecureDocumentUrlSimple, hb, hp]

/-- Witness for C10: with the bucket unset both checks report the bucket
error even though the project is also unset and the file is missing; with
the bucket set and the project unset, the project error is reported even
though the file is missing. -/
theorem C10_config_check_order_witness :
    ((uploadSecureDocument { envNoBucket with googleCloudProject := none }
        demoFs demoStore ("org-7") ("/tmp/missing.pdf")).result
      = Except.error ⟨PyErrKind.valueError,
          "GCS_BUCKET_NAME environment variable is not set or is empty"⟩)
    ∧ ((uploadSecureDocument envNoProject demoFs demoStore ("org-7")
        ("/tmp/missing.pdf")).result
      = Except.error ⟨PyErrKind.valueError,
          "GOOGLE_CLOUD_PROJECT environment variable is not set"⟩)
    ∧ (uploadSecureDocument envNoProject demoFs demoStore ("org-7")
        ("/tmp/missing.pdf")).events = [] := by
  have h1 := (C10_config_check_order
    { envNoBucket with googleCloudProject := none } demoFs demoStore ("org-7")
    ("/tmp/missing.pdf") ("report.pdf")).1 rfl
  have h2 := (C10_config_check_order envNoProject demoFs demoStore ("org-7")
    ("/tmp/missing.pdf") ("report.pdf")).2 rfl rfl
  exact ⟨h1.1, h2.1, h2.2.1⟩

/-- Claim C8: against a store model where a write makes the object
immediately exist (`applyEvents`), a successful `upload_secure_document`
followed immediately by `get_secure_document_url` for the same organization
and the basename of the uploaded path succeeds and returns the signed url
for the common key, because both operations compute the same object key. -/
theorem C8_put_then_link (env : Env) (fs : FS) (store : Store)
    (organizationId filePath : String) (s0 : String → Bool)
    (hb : envTruthy env.gcsBucketName = true)
    (hp : envTruthy env.googleCloudProject = true)
    (hf : fs filePath = true)
    (hc : store.clientInit = none)
    (ha : store.bucketAccess = none)
    (hu : store.uploadTo ("prod_org_" ++ organizationId ++ "/" ++ basename filePath)
        = none)
    (hs : store.signAt ("prod_org_" ++ organizationId ++ "/" ++ basename filePath)
        = none) :
    ((uploadSecureDocument env fs { store with existsAt := s0 }
        organizationId filePath).result = Except.ok none)
    ∧ ((getSecureDocumentUrl env
        { store with existsAt := (applyEvents s0
            ((uploadSecureDocument env fs { store with existsAt := s0 }
              organizationId filePath).events)) }
        organizationId (basename filePath)).result
      = Except.ok (store.signUrl
          ("prod_org_" ++ organizationId ++ "/" ++ basename filePath))) := by
  have hok : (uploadSecureDocument env fs { store with existsAt := s0 }
      organizationId filePath).result = Except.ok none := by
    unfold uploadSecureDocument
    simp [hb, hp, hf, hc, ha, hu]
  have hev : (uploadSecureDocument env fs { store with existsAt := s0 }
      organizationId filePath).events
      = [StoreEvent.clientInit, StoreEvent.bucketAccess,
         StoreEvent.upload ("prod_org_" ++ organizationId ++ "/" ++ basename filePath)] := by
    unfold uploadSecureDocument
    simp [hb, hp, hf, hc, ha, hu]
  refine ⟨hok, ?_⟩
  rw [hev]
  have hex : applyEvents s0
      [StoreEvent.clientInit, StoreEvent.bucketAccess,
       StoreEvent.upload ("prod_org_" ++ organizationId ++ "/" ++ basename filePath)]
      ("prod_org_" ++ organizationId ++ "/" ++ basename filePath) = true := by
    simp [applyEvents, applyEvent]
  unfold getSecureDocumentUrl
  simp [hb, hp, hc, ha, hs, hex]

/-- Witness for C8 at the concrete fixtures, starting from an empty
in-memory store. -/
theorem C8_put_then_link_witness :
    ((uploadSecureDocument demoEnv demoFs
        { demoStore with existsAt := fun _ => false }
        ("org-7") ("/tmp/report.pdf")).result = Except.ok none)
    ∧ ((getSecureDocumentUrl demoEnv
        { demoStore with existsAt := (applyEvents (fun _ => false)
            ((uploadSecureDocument demoEnv demoFs
              { demoStore with existsAt := fun _ => false }
              ("org-7") ("/tmp/report.pdf")).events)) }
        ("org-7") (basename ("/tmp/report.pdf"))).result
      = Except.ok (demoStore.signUrl
          ("prod_org_" ++ ("org-7") ++ "/" ++ basename ("/tmp/report.pdf")))) := by
  have h := C8_put_then_link demoEnv demoFs demoStore ("org-7")
    ("/tmp/report.pdf") (fun _ => false) rfl rfl rfl rfl rfl rfl rfl
  exact h

/-- Counterexample to claim C9: a fully successful call of the simple
variant of `upload_secure_document` changes process-local mutable state: it
leaves the environment different from the one it started with (it sets
GCE_METADATA_HOST and GOOGLE_CLOUD_DISABLE_GRPC and removes
GOOGLE_APPLICATION_CREDENTIALS), even though the call succeeds. -/
theorem C9_frame_counterexample :
    ((uploadSecureDocumentSimple demoEnv demoFs demoStore ("org-7")
        ("/tmp/report.pdf")).result = Except.ok none)
    ∧ (uploadSecureDocumentSimple demoEnv demoFs demoStore ("org-7")
        ("/tmp/report.pdf")).envAfter ≠ demoEnv
    ∧ (uploadSecureDocumentSimple demoEnv demoFs demoStore ("org-7")
        ("/tmp/report.pdf")).envAfter.gceMetadataHost
      = some ("169.254.169.255") := by
  refine ⟨rfl, ?_, rfl⟩
  intro h
  have h2 : (some ("169.254.169.255") : Option String) = none :=
    congrArg Env.gceMetadataHost h
  simp at h2

/-- Claim C9 (amended): every successful call of `upload_secure_document`
records exactly one write to the external store (the upload of the computed
key); the main variant leaves the process environment unchanged, while the
simple variant mutates it to exactly `envAfterDisableMetadata` of the
starting environment. -/
theorem C9_frame_amended (env : Env) (fs : FS) (store : Store)
    (organizationId filePath : String)
    (hb : envTruthy env.gcsBucketName = true)
    (hp : envTruthy env.googleCloudProject = true)
    (hf : fs filePath = true)
    (hc : store.clientInit = none)
    (hcc : store.credsChain = none)
    (ha : store.bucketAccess = none)
    (hu : store.uploadTo ("prod_org_" ++ organizationId ++ "/" ++ basename filePath)
        = none) :
    ((uploadSecureDocument env fs store organizationId filePath).events
      = [StoreEvent.clientInit, StoreEvent.bucketAccess,
         StoreEvent.upload ("prod_org_" ++ organizationId ++ "/" ++ basename filePath)])
    ∧ (uploadSecureDocument env fs store organizationId filePath).envAfter = env
    ∧ ((uploadSecureDocumentSimple env fs store organizationId filePath).events
      = [StoreEvent.clientInit, StoreEvent.bucketAccess,
         StoreEvent.upload ("prod_org_" ++ organizationId ++ "/" ++ basename filePath)])
    ∧ (uploadSecureDocumentSimple env fs store organizationId filePath).envAfter
      = envAfterDisableMetadata env := by
  refine ⟨?_, ?_, ?_, ?_⟩ <;>
    simp [uploadSecureDocument, uploadSecureDocumentSimple, hb, hp, hf, hc,
      hcc, ha, hu]

/-- Witness for C9 (amended) at the concrete fixtures. -/
theorem C9_frame_amended_witness :
    ((uploadSecureDocument demoEnv demoFs demoStore ("org-7")
        ("/tmp/report.pdf")).events
      = [StoreEvent.clientInit, StoreEvent.bucketAccess,
         StoreEvent.upload ("prod_org_" ++ ("org-7") ++ "/"
           ++ basename ("/tmp/report.pdf"))])
    ∧ (uploadSecureDocument demoEnv demoFs demoStore ("org-7")
        ("/tmp/report.pdf")).envAfter = demoEnv
    ∧ ((uploadSecureDocumentSimple demoEnv demoFs demoStore ("org-7")
        ("/tmp/report.pdf")).events
      = [StoreEvent.clientInit, StoreEvent.bucketAccess,
         StoreEvent.upload ("prod_org_" ++ ("org-7") ++ "/"
           ++ basename ("/tmp/report.pdf"))])
    ∧ (uploadSecureDocumentSimple demoEnv demoFs demoStore ("org-7")
        ("/tmp/report.pdf")).envAfter = envAfterDisableMetadata demoEnv := by
  have h := C9_frame_amended demoEnv demoFs demoStore ("org-7")
    ("/tmp/report.pdf") rfl rfl rfl rfl rfl rfl rfl
  exact h

end KoveoDocs
